import Mathlib

/-!
Verification of the content-aggregation and episode-memory core of the
daily-podcast pipeline.  The JavaScript sources (`episodeMemory.js`,
`fetcher.js`, `costTracker.js`, `surfConditions.js`) are shallowly embedded:
pure array/string manipulation is translated directly, network calls are
abstracted by explicit outcome parameters ("oracles") describing what the
remote end returned, and clock-dependent date handling is abstracted by an
integer day index at the local-midnight boundary.
-/

set_option autoImplicit false

namespace Benpod

/-! ## JavaScript string primitives

`String.prototype.toLowerCase`, `trim` and `slice(0, n)` are modelled over
the character list of the string so that concrete instances evaluate inside
the kernel. -/

/-- JS `s.toLowerCase()`: character-wise lowercasing. -/
def jsToLower (s : String) : String := String.mk (s.data.map Char.toLower)

/-- JS `s.trim()`: drop leading and trailing whitespace. -/
def jsTrim (s : String) : String :=
  String.mk (((s.data.dropWhile Char.isWhitespace).reverse.dropWhile Char.isWhitespace).reverse)

/-- JS `s.slice(0, n)`: the first `n` characters. -/
def jsTake (n : Nat) (s : String) : String := String.mk (s.data.take n)

/-- Substring containment on character lists (JS `String.prototype.includes`). -/
def listContainsSub (needle : List Char) : List Char → Bool
  | [] => needle.isEmpty
  | c :: rest => needle.isPrefixOf (c :: rest) || listContainsSub needle rest

/-- JS `hay.includes(needle)`. -/
def jsIncludes (hay needle : String) : Bool := listContainsSub needle.data hay.data

/-! ## Episode memory data model (`episodeMemory.js`) -/

/-- Source constant `MAX_EPISODES` (episodeMemory.js line 16). -/
def MAX_EPISODES : Nat := 14

/-- One persisted memory entry.  `articles` is optional: `index.js` attaches
the field only when at least one article title was recorded for the day. -/
structure EpisodeRecord where
  date : String
  summary : String
  keyTopics : List String
  articles : Option (List String)
deriving DecidableEq

/-- The persisted aggregate `{ episodes: [...] }`, newest first. -/
structure EpisodeMemory where
  episodes : List EpisodeRecord
deriving DecidableEq

/-- Embedding of `addEpisodeToMemory` (episodeMemory.js lines 176-180):
drop any record carrying the new record's date, prepend the new record and
truncate to `MAX_EPISODES`. -/
def addEpisodeToMemory (memoryData : EpisodeMemory) (newRecord : EpisodeRecord) : EpisodeMemory :=
  let filtered := memoryData.episodes.filter (fun ep => ep.date != newRecord.date)
  let updated := (newRecord :: filtered).take MAX_EPISODES
  { episodes := updated }

/-- Specification-side companion for the rolling-window characterisation:
keep, for each date, only its first (most recent) occurrence.  Stated from
the spec's "most-recently-upserted distinct dates" wording and compared
against folds of `addEpisodeToMemory`. -/
def dedupByDate : List EpisodeRecord → List EpisodeRecord
  | [] => []
  | r :: rest => r :: (dedupByDate rest).filter (fun ep => ep.date != r.date)

/-- Embedding of `getCoveredArticles` (episodeMemory.js lines 210-227).
Dates are abstracted by `dayOf`, mapping a date string to its day index at
the local-midnight boundary (`none` for an unparseable date, which the JS
comparison `new Date(ep.date) >= cutoff` rejects since `NaN` compares
false); `today` is the current day index, so `today - days` is the cutoff
computed by `cutoff.setDate(cutoff.getDate() - days)` plus
`cutoff.setHours(0,0,0,0)`. -/
def getCoveredArticles (dayOf : String → Option Int) (today : Int)
    (memoryData : EpisodeMemory) (days : Int) : List String :=
  if memoryData.episodes.isEmpty then []
  else
    let cutoff := today - days
    let relevant := memoryData.episodes.filter (fun ep =>
      match dayOf ep.date with
      | some d => decide (cutoff ≤ d)
      | none => false)
    relevant.foldl (fun acc ep =>
      match ep.articles with
      | some arts => acc ++ arts
      | none => acc) []

/-- Embedding of `hasArticleBeenCovered` (episodeMemory.js lines 236-241):
normalise both sides by `toLowerCase().trim()` and compare for equality. -/
def hasArticleBeenCovered (dayOf : String → Option Int) (today : Int)
    (memoryData : EpisodeMemory) (articleTitle : String) (days : Int) : Bool :=
  let covered := getCoveredArticles dayOf today memoryData days
  let normalizedTitle := jsTrim (jsToLower articleTitle)
  covered.any (fun title => jsTrim (jsToLower title) == normalizedTitle)

/-! ## Memory store transport (`getEpisodeMemory` / `commitEpisodeMemory`) -/

/-- Outcome of the backend `GET /contents` call issued by
`getEpisodeMemory`: a success carries the decoded file body and its git
sha, an HTTP error carries its status code, a network error carries
nothing. -/
inductive GhGetOutcome where
  | success (content : String) (sha : String)
  | httpError (status : Nat)
  | netError
deriving DecidableEq

/-- Errors a memory read can propagate to its caller. -/
inductive MemoryReadError where
  | parseError
  | httpError (status : Nat)
  | netError
deriving DecidableEq

/-- Embedding of `getEpisodeMemory` (episodeMemory.js lines 37-58).
`parse` abstracts `JSON.parse` over the base64-decoded body (`none` =
throw; the catch re-raises it because a parse error carries no `response`
field).  A 404 response maps to the empty memory with a null sha; every
other failure propagates. -/
def getEpisodeMemory (parse : String → Option EpisodeMemory) (o : GhGetOutcome) :
    Except MemoryReadError (EpisodeMemory × Option String) :=
  match o with
  | .success content sha =>
    match parse content with
    | some data => .ok (data, some sha)
    | none => .error .parseError
  | .httpError status =>
    if status == 404 then .ok ({ episodes := [] }, none)
    else .error (.httpError status)
  | .netError => .error .netError

/-- The JSON body of the `PUT /contents` request issued by
`commitEpisodeMemory` (episodeMemory.js lines 66-88).  The `sha` key is
spread into the body only when the JS value is truthy
(`...(sha ? \x7b sha \x7d : \x7b\x7d)`): both a null sha and the empty
string are omitted. -/
structure CommitBody where
  message : String
  content : String
  branch : String
  sha : Option String
deriving DecidableEq

/-- Embedding of `commitEpisodeMemory`'s request construction; `serialize`
abstracts `Buffer.from(JSON.stringify(memoryData)).toString('base64')`. -/
def commitEpisodeMemory (serialize : EpisodeMemory → String)
    (memoryData : EpisodeMemory) (sha : Option String) (configId : String) : CommitBody :=
  { message := "Update " ++ configId ++ " episode memory"
    content := serialize memoryData
    branch := "gh-pages"
    sha := match sha with
      | some s => if s == "" then none else some s
      | none => none }

/-! ## Content items, usage records and source results (`fetcher.js`)

Network calls are abstracted by `Except Unit _` oracle fields describing
what the remote end returned (`error` = the axios call or a later access
threw).  Each fetcher also reports the HTTP requests it issued, with the
`timeout` option of the call site (`none` when no timeout was passed). -/

/-- One normalized unit of fetched content.  The JS objects omit `date` or
`url` on some paths; absent fields are `none`. -/
structure ContentItem where
  title : String
  summary : String
  source : String
  date : Option String
  url : Option String
deriving DecidableEq

/-- Gemini Flash token counters as attached to a fetch result
(`usage.geminiFlash`). -/
structure GeminiFlashUsage where
  promptTokens : Nat
  candidatesTokens : Nat
deriving DecidableEq

/-- A per-source fetch result `{ items, usage }`; `usage = none` models
`usage: null`. -/
structure SourceResult where
  items : List ContentItem
  usage : Option GeminiFlashUsage
deriving DecidableEq

/-- The `{ items: [], usage: null }` value every failure path returns. -/
def emptySourceResult : SourceResult := { items := [], usage := none }

/-- Raw token counts of a Gemini response (`response.usageMetadata`),
absent when the SDK reports none. -/
structure GeminiUsageMeta where
  promptTokenCount : Nat
  candidatesTokenCount : Nat
deriving DecidableEq

/-- Outcome of one `modelFlash.generateContent` call. -/
structure GeminiResponse where
  text : String
  usageMetadata : Option GeminiUsageMeta
deriving DecidableEq

/-- An HTTP request as issued by the fetchers: URL plus the `timeout`
option passed to the HTTP client at that call site. -/
structure HttpRequest where
  url : String
  timeout : Option Nat
deriving DecidableEq

/-! ## Feed and scrape clients -/

/-- One `<item>` element's raw text fields as extracted by cheerio. -/
structure RawFeedItem where
  title : String
  description : String
  pubDate : String
deriving DecidableEq

/-- Embedding of `fetchRSSFeed` (fetcher.js lines 822-849).  `stripTags`
abstracts the HTML-stripping regex replace; `o` is the outcome of the
`axios.get` with a 10s timeout plus XML parsing — an error is caught and
yields the empty list. -/
def fetchRSSFeed (stripTags : String → String) (o : Except Unit (List RawFeedItem))
    (url sourceName : String) (maxItems : Nat) : List ContentItem × List HttpRequest :=
  let req : HttpRequest := { url := url, timeout := some 10000 }
  match o with
  | .error _ => ([], [req])
  | .ok raw =>
    let items := (raw.take maxItems).filterMap (fun el =>
      let title := jsTrim el.title
      let description := jsTake 300 (stripTags (jsTrim el.description))
      let pubDate := jsTrim el.pubDate
      if title != "" then
        some { title := title, summary := description, date := some pubDate,
               source := sourceName, url := none }
      else none)
    (items, [req])

/-- The CSS-selector bundle `scrapeBlog` receives. -/
structure ScrapeSelectors where
  container : String
  title : String
  summary : String
  date : String
deriving DecidableEq

/-- One container element's raw text fields under the given selectors. -/
structure RawScrapeItem where
  title : String
  summary : String
  date : String
deriving DecidableEq

/-- Embedding of `scrapeBlog` (fetcher.js lines 854-879): `o` abstracts
the page fetch (10s timeout) plus the cheerio selector application. -/
def scrapeBlog (o : Except Unit (List RawScrapeItem)) (url sourceName : String)
    (selectors : ScrapeSelectors) (maxItems : Nat) : List ContentItem × List HttpRequest :=
  let req : HttpRequest := { url := url, timeout := some 10000 }
  match o with
  | .error _ => ([], [req])
  | .ok raw =>
    let items := (raw.take maxItems).filterMap (fun el =>
      let title := jsTrim el.title
      let summary := jsTake 300 (jsTrim el.summary)
      let date := jsTrim el.date
      if title != "" then
        some { title := title, summary := summary, date := some date,
               source := sourceName, url := none }
      else none)
    (items, [req])

/-! ## Sports clients -/

/-- The three name fields a scoreboard competitor's team carries. -/
structure EspnTeamNames where
  name : String
  displayName : String
  shortDisplayName : String
deriving DecidableEq

structure EspnCompetitor where
  team : EspnTeamNames
deriving DecidableEq

structure EspnCompetition where
  competitors : List EspnCompetitor
deriving DecidableEq

structure EspnEvent where
  id : String
  name : String
  statusDetail : String
  competitions : List EspnCompetition
deriving DecidableEq

/-- The scoreboard payload; `events` is optional
(`scoreboard.events?.find`). -/
structure ScoreboardData where
  events : Option (List EspnEvent)
deriving DecidableEq

/-- Remote outcomes consumed by one `fetchSportsGame` run plus the clock
values it reads (`getYesterdayDate()`, `new Date().toLocaleDateString()`)
and whether the Gemini client was initialised (`modelFlash`). -/
structure SportsOracle where
  scoreboard : Except Unit ScoreboardData
  summary : Except Unit String
  modelAvailable : Bool
  gemini : Except Unit GeminiResponse
  yesterday : String
  localeDate : String

/-- The `leagueMap` literal inside `fetchSportsGame` (lines 254-258). -/
def leagueMap (league : String) : Option (String × String) :=
  if league == "nba" then some ("basketball", "nba")
  else if league == "mlb" then some ("baseball", "mlb")
  else if league == "nfl" then some ("football", "nfl")
  else none

/-- Common prefix of the ESPN site API URLs. -/
def espnBase : String := "https://site.api.espn.com/apis/site/v2/sports/"

/-- Embedding of `fetchSportsGame` (fetcher.js lines 249-321).  Both axios
calls are issued without a timeout option.  An event whose `competitions`
array is empty is treated as non-matching (the JS find callback would
throw there and the catch would return the same empty result unless a
later event matched). -/
def fetchSportsGame (o : SportsOracle) (league teamName espnApiName : String) :
    SourceResult × List HttpRequest :=
  match leagueMap (jsToLower league) with
  | none => (emptySourceResult, [])
  | some (sport, lg) =>
    let scoreboardUrl := espnBase ++ sport ++ "/" ++ lg ++ "/scoreboard?dates=" ++ o.yesterday
    let req1 : HttpRequest := { url := scoreboardUrl, timeout := none }
    match o.scoreboard with
    | .error _ => (emptySourceResult, [req1])
    | .ok scoreboard =>
      match (scoreboard.events.getD []).find? (fun e =>
          (e.competitions.headD { competitors := [] }).competitors.any (fun c =>
            c.team.name == teamName || c.team.displayName == teamName ||
              c.team.shortDisplayName == teamName)) with
      | none => (emptySourceResult, [req1])
      | some event =>
        let summaryUrl :=
          if jsToLower league == "mlb" then
            espnBase ++ sport ++ "/" ++ lg ++ "/scoreboard/summary?event=" ++ event.id
          else
            espnBase ++ sport ++ "/" ++ lg ++ "/summary?event=" ++ event.id
        let req2 : HttpRequest := { url := summaryUrl, timeout := none }
        match o.summary with
        | .error _ => (emptySourceResult, [req1, req2])
        | .ok _summaryData =>
          if o.modelAvailable = false then
            ({ items := [{ title := teamName ++ " Game: " ++ event.name,
                           summary := event.statusDetail, source := "ESPN",
                           date := none, url := none }], usage := none },
             [req1, req2])
          else
            match o.gemini with
            | .error _ => (emptySourceResult, [req1, req2])
            | .ok resp =>
              ({ items := [{ title := teamName ++ " Recap: " ++ event.name,
                             summary := resp.text, date := some o.localeDate,
                             source := "ESPN " ++ teamName, url := none }],
                 usage := resp.usageMetadata.map (fun u =>
                   { promptTokens := u.promptTokenCount,
                     candidatesTokens := u.candidatesTokenCount }) },
               [req1, req2])

/-- One article of the ESPN team-news payload. -/
structure EspnArticle where
  headline : String
  description : String
  published : String
deriving DecidableEq

/-- An entry of the JSON array Gemini returns for team-news filtering. -/
structure NewsItem where
  headline : String
  summary : String
deriving DecidableEq

/-- Remote outcomes for one `fetchTeamNews` run: `articles` is the news
API payload's optional `articles` array (axios call with a 10s timeout). -/
structure TeamNewsOracle where
  articles : Except Unit (Option (List EspnArticle))
  modelAvailable : Bool
  gemini : Except Unit GeminiResponse
  localeDate : String

/-- The `sportPath` map literal inside `fetchTeamNews` (lines 336-340);
unlike `fetchSportsGame`, the key is not lowercased. -/
def sportPath (league : String) : Option String :=
  if league == "nba" then some "basketball/nba"
  else if league == "mlb" then some "baseball/mlb"
  else if league == "nfl" then some "football/nfl"
  else none

/-- Embedding of `fetchTeamNews` (fetcher.js lines 329-438).  `parseNews`
abstracts code-fence stripping plus `JSON.parse` plus the `Array.isArray`
check over the model's text (`none` = parse failure or a non-array value,
both of which return empty items while keeping the usage). -/
def fetchTeamNews (parseNews : String → Option (List NewsItem)) (o : TeamNewsOracle)
    (league teamName espnNewsId : String) : SourceResult × List HttpRequest :=
  if espnNewsId == "" then (emptySourceResult, [])
  else
    match sportPath league with
    | none => (emptySourceResult, [])
    | some sp =>
      let req : HttpRequest :=
        { url := espnBase ++ sp ++ "/news?team=" ++ espnNewsId ++ "&limit=10",
          timeout := some 10000 }
      match o.articles with
      | .error _ => (emptySourceResult, [req])
      | .ok arts =>
        if (arts.getD []).isEmpty then (emptySourceResult, [req])
        else if o.modelAvailable = false then (emptySourceResult, [req])
        else
          match o.gemini with
          | .error _ => (emptySourceResult, [req])
          | .ok resp =>
            let usage := resp.usageMetadata.map (fun u =>
              { promptTokens := u.promptTokenCount,
                candidatesTokens := u.candidatesTokenCount })
            match parseNews resp.text with
            | none => ({ items := [], usage := usage }, [req])
            | some newsItems =>
              if newsItems.isEmpty then ({ items := [], usage := usage }, [req])
              else
                ({ items := newsItems.map (fun item =>
                    { title := teamName ++ ": " ++ item.headline,
                      summary := item.summary, date := some o.localeDate,
                      source := "ESPN " ++ teamName ++ " News", url := none }),
                   usage := usage }, [req])

/-! ## Kill-The-Newsletter client -/

/-- One `<item>`/`<entry>` element of the newsletter feed, raw fields. -/
structure KTNEntry where
  title : String
  content : String
  pubDate : String
deriving DecidableEq

/-- Default feed URL used when the config passes a falsy `feedUrl`. -/
def defaultKtnUrl : String :=
  "https://kill-the-newsletter.com/feeds/fs23gw6u0bqlwqmjs3fj.xml"

/-- The body of the `.each` callback in `fetchKillTheNewsletter`: keep an
entry when its trimmed title and publication-date string are non-empty and
its publication date, truncated to local midnight (`dayOf`), equals
`today`. -/
def ktnKeep (stripTags : String → String) (dayOf : String → Option Int) (today : Int)
    (e : KTNEntry) : Option ContentItem :=
  let title := jsTrim e.title
  let description := jsTake 300 (stripTags (jsTrim e.content))
  let pubDateText := jsTrim e.pubDate
  if title == "" || pubDateText == "" then none
  else
    match dayOf pubDateText with
    | some d =>
      if d == today then
        some { title := title,
               summary := if description == "" then title else description,
               date := some pubDateText, source := "Axios Newsletters", url := none }
      else none
    | none => none

/-- Embedding of `fetchKillTheNewsletter` (fetcher.js lines 1068-1119). -/
def fetchKillTheNewsletter (stripTags : String → String) (dayOf : String → Option Int)
    (today : Int) (o : Except Unit (List KTNEntry)) (feedUrl : String) :
    List ContentItem × List HttpRequest :=
  let url := if feedUrl == "" then defaultKtnUrl else feedUrl
  let req : HttpRequest := { url := url, timeout := some 10000 }
  match o with
  | .error _ => ([], [req])
  | .ok entries => (entries.filterMap (ktnKeep stripTags dayOf today), [req])

/-! ## Article discussion fetcher (`fetchArticles`) -/

/-- One feed entry after title extraction and RSS/Atom link extraction. -/
structure FeedLinkEntry where
  title : String
  link : String
deriving DecidableEq

/-- A candidate article collected from the feeds. -/
structure ArticleLink where
  title : String
  link : String
  source : String
deriving DecidableEq

/-- The object `fetchArticles` pushes per analyzed article. -/
structure ArticleAnalysis where
  title : String
  link : String
  analysis : String
  source : String
deriving DecidableEq

structure ArticleFeedConfig where
  url : String
  name : String           -- "" models a missing `feed.name` (falsy)
  maxItems : Option Nat   -- `feed.maxItems ?? maxPerEpisode` is nullish coalescing
deriving DecidableEq

structure ArticlesConfig where
  enabled : Bool
  maxPerEpisode : Nat     -- 0 models a missing value; `|| 2` treats 0 as absent
  killTheNewsletterFeedUrl : String  -- "" models a missing value
  feeds : List ArticleFeedConfig
deriving DecidableEq

structure FeedSource where
  url : String
  name : String
  maxItems : Nat
deriving DecidableEq

/-- The `feedSources` construction in `fetchArticles` (lines 1212-1221). -/
def buildFeedSources (cfg : ArticlesConfig) : List FeedSource :=
  let maxPerEpisode := if cfg.maxPerEpisode == 0 then 2 else cfg.maxPerEpisode
  (if cfg.killTheNewsletterFeedUrl != "" then
    [{ url := cfg.killTheNewsletterFeedUrl, name := "Kill The Newsletter",
       maxItems := maxPerEpisode }]
  else []) ++
  cfg.feeds.map (fun f =>
    { url := f.url, name := if f.name == "" then f.url else f.name,
      maxItems := f.maxItems.getD maxPerEpisode })

/-- Oracles for one `fetchArticles` run: per-URL feed fetch outcomes (10s
timeout), per-link article-page fetch outcomes (15s timeout) whose payload
is the extracted, whitespace-cleaned article text, and per-link Gemini
analysis outcomes. -/
structure ArticlesOracle where
  feed : String → Except Unit (List FeedLinkEntry)
  page : String → Except Unit String
  gemini : String → Except Unit GeminiResponse
  modelAvailable : Bool

/-- Result of `fetchArticles`, with the issued requests split into the
feed-fetch phase and the article-page phase (the two sequential loops). -/
structure FetchArticlesResult where
  items : List ArticleAnalysis
  usage : Option GeminiFlashUsage
  feedRequests : List HttpRequest
  pageRequests : List HttpRequest

/-- Accumulator of the per-article loop. -/
structure ArticleLoopState where
  articles : List ArticleAnalysis
  promptTokens : Nat
  candidatesTokens : Nat
  requests : List HttpRequest

/-- The per-feed collection step of `fetchArticles` (lines 1229-1282):
fetch the feed with a 10s timeout (a failure skips the feed), keep entries
with a non-empty title and link that are not the Kill-The-Newsletter feed
itself and not already covered within 30 days, and cap per feed. -/
def collectFeedLinks (dayOf : String → Option Int) (today : Int) (o : ArticlesOracle)
    (episodeMemory : EpisodeMemory) (fs : FeedSource) : List ArticleLink × HttpRequest :=
  let req : HttpRequest := { url := fs.url, timeout := some 10000 }
  match o.feed fs.url with
  | .error _ => ([], req)
  | .ok entries =>
    let feedLinks := entries.filterMap (fun e =>
      let title := jsTrim e.title
      if title != "" && e.link != ""
          && !(jsIncludes e.link "kill-the-newsletter.com/feeds")
          && !(hasArticleBeenCovered dayOf today episodeMemory title 30) then
        some { title := title, link := e.link, source := fs.name }
      else none)
    (feedLinks.take fs.maxItems, req)

/-- The body of the per-article loop in `fetchArticles` (lines 1303-1387):
fetch the page with a 15s timeout, truncate the extracted text to 15000
characters, skip articles shorter than 200 characters, analyze with
Gemini; a missing `usageMetadata` raises inside the loop's try, so the
article is skipped (`continue`). -/
def fetchArticleStep (o : ArticlesOracle) (st : ArticleLoopState) (lr : ArticleLink) :
    ArticleLoopState :=
  let req : HttpRequest := { url := lr.link, timeout := some 15000 }
  let st := { st with requests := st.requests ++ [req] }
  match o.page lr.link with
  | .error _ => st
  | .ok text0 =>
    let articleText := jsTake 15000 text0
    if articleText.length < 200 then st
    else
      match o.gemini lr.link with
      | .error _ => st
      | .ok resp =>
        match resp.usageMetadata with
        | none => st
        | some u =>
          { st with
            articles := st.articles ++
              [{ title := lr.title, link := lr.link, analysis := jsTrim resp.text,
                 source := if lr.source == "" then "Curated Articles" else lr.source }],
            promptTokens := st.promptTokens + u.promptTokenCount,
            candidatesTokens := st.candidatesTokens + u.candidatesTokenCount }

/-- Embedding of `fetchArticles` (fetcher.js lines 1201-1403). -/
def fetchArticles (dayOf : String → Option Int) (today : Int) (o : ArticlesOracle)
    (cfg : ArticlesConfig) (episodeMemory : EpisodeMemory) : FetchArticlesResult :=
  if cfg.enabled = false then
    { items := [], usage := none, feedRequests := [], pageRequests := [] }
  else
    let maxPerEpisode := if cfg.maxPerEpisode == 0 then 2 else cfg.maxPerEpisode
    let feedSources := buildFeedSources cfg
    if feedSources.isEmpty then
      { items := [], usage := none, feedRequests := [], pageRequests := [] }
    else
      let collected := feedSources.map (collectFeedLinks dayOf today o episodeMemory)
      let allArticleLinks := collected.flatMap (fun c => c.1)
      let feedRequests := collected.map (fun c => c.2)
      if allArticleLinks.isEmpty then
        { items := [], usage := none, feedRequests := feedRequests, pageRequests := [] }
      else
        let articlesToFetch := allArticleLinks.take maxPerEpisode
        if o.modelAvailable = false then
          { items := [], usage := none, feedRequests := feedRequests, pageRequests := [] }
        else
          let final := articlesToFetch.foldl (fetchArticleStep o)
            { articles := [], promptTokens := 0, candidatesTokens := 0, requests := [] }
          { items := final.articles,
            usage := if final.articles.length > 0 then
                some { promptTokens := final.promptTokens,
                       candidatesTokens := final.candidatesTokens }
              else none,
            feedRequests := feedRequests, pageRequests := final.requests }

/-! ## Surf, Olympics and World Cup summaries -/

/-- A surf-conditions result: the summary string the aggregator consumes. -/
structure SurfResult where
  summary : String
deriving DecidableEq

/-- Embedding of `fetchSurflineConditions` (surfConditions.js lines
14-50); `o` abstracts the three parallel forecast fetches plus
`parseSurfForecast`, whose successful summary string is the payload.  All
failure paths return a placeholder summary object, never an error. -/
def fetchSurflineConditions (o : Except Unit String) (spotIds : List String)
    (location : String) : SurfResult :=
  if spotIds.isEmpty then
    { summary := "Surf conditions unavailable (no spots configured)" }
  else
    match o with
    | .ok summary => { summary := summary }
    | .error _ =>
      { summary := "Surf conditions unavailable for " ++ location ++ " (API error)" }

/-- The summary object returned by `fetchOlympicsUpdates` and
`fetchWorldCupUpdates`: only the `summary` field reaches the aggregator. -/
structure EventSummary where
  summary : String
deriving DecidableEq

/-! ## Aggregator (`fetchAdditionalSourcing`) -/

structure TeamConfig where
  league : String
  name : String
  espnApiName : String
  espnNewsId : String   -- "" models a missing id (the JS filter is falsy)
  rssFeedUrl : String   -- "" models a missing feed URL
deriving DecidableEq

structure EventConfig where
  type : String
  enabled : Bool
  onlyDuringEvent : Bool
deriving DecidableEq

structure SportsConfig where
  enabled : Bool
  teams : List TeamConfig
  includeTeamNews : Bool
  events : List EventConfig
deriving DecidableEq

/-- The `config.content` fields `fetchAdditionalSourcing` consults. -/
structure ContentConfig where
  realEstateEnabled : Bool
  sports : SportsConfig
  internationalRelationsEnabled : Bool
  newsEnabled : Bool
  surfEnabled : Bool
deriving DecidableEq

/-- Results of the individual concurrent fetches, abstracted as inputs:
`sports` lists one result per configured team, `teamNews` one per team
with a news id, `teamRSS` one per team with an RSS feed. -/
structure FetchOutcomes where
  realEstate : SourceResult
  sports : List SourceResult
  teamNews : List SourceResult
  teamRSS : List SourceResult
  iran : SourceResult
  news : SourceResult
  surf : SurfResult
  olympics : EventSummary
  worldcup : EventSummary
deriving DecidableEq

/-- The `results` object after `await Promise.all(promises)`: a field is
set exactly when the corresponding fetch was launched (fetcher.js lines
1410-1524).  `olympicsActive`/`worldcupActive` are the temporal predicates
`areOlympicsActive().active` and `isWorldCupActive().active`. -/
structure GatheredResults where
  realEstate : Option SourceResult
  sports : Option (List SourceResult)
  teamNews : Option (List SourceResult)
  teamRSS : Option (List SourceResult)
  iran : Option SourceResult
  news : Option SourceResult
  surf : Option SurfResult
  olympics : Option EventSummary
  worldcup : Option EventSummary
deriving DecidableEq

/-- Which fetches are launched, per the guards in lines 1414-1521. -/
def gatherResults (cfg : ContentConfig) (out : FetchOutcomes)
    (olympicsActive worldcupActive : Bool) : GatheredResults :=
  { realEstate := if cfg.realEstateEnabled then some out.realEstate else none
    sports := if cfg.sports.enabled then some out.sports else none
    teamNews := if cfg.sports.enabled && cfg.sports.includeTeamNews then
        some out.teamNews
      else none
    teamRSS := if cfg.sports.enabled
        && !(cfg.sports.teams.filter (fun t => t.rssFeedUrl != "")).isEmpty then
        some out.teamRSS
      else none
    iran := if cfg.internationalRelationsEnabled then some out.iran else none
    news := if cfg.newsEnabled then some out.news else none
    surf := if cfg.surfEnabled then some out.surf else none
    olympics :=
      match cfg.sports.events.find? (fun e => e.type == "olympics") with
      | some ev =>
        if ev.enabled && (!ev.onlyDuringEvent || olympicsActive) then some out.olympics
        else none
      | none => none
    worldcup :=
      match cfg.sports.events.find? (fun e => e.type == "worldcup") with
      | some ev =>
        if ev.enabled && (!ev.onlyDuringEvent || worldcupActive) then some out.worldcup
        else none
      | none => none }

/-- The per-category buckets of `fetchAdditionalSourcing`'s `items`
object: every key is always present. -/
structure AdditionalItems where
  realEstate : List ContentItem
  sports : List ContentItem
  iran : List ContentItem
  news : List ContentItem
  surf : List ContentItem
  olympics : List ContentItem
  worldcup : List ContentItem
deriving DecidableEq

/-- The combined usage object (`usage.geminiFlash` accumulator). -/
structure CombinedUsage where
  geminiFlash : GeminiFlashUsage
deriving DecidableEq

/-- One accumulation step of the usage-combination block (lines
1558-1606): add a call's Gemini Flash counters when present. -/
def addUsage (acc : GeminiFlashUsage) (u : Option GeminiFlashUsage) : GeminiFlashUsage :=
  match u with
  | some g => { promptTokens := acc.promptTokens + g.promptTokens,
                candidatesTokens := acc.candidatesTokens + g.candidatesTokens }
  | none => acc

/-- Embedding of `fetchAdditionalSourcing` (fetcher.js lines 1410-1609):
build the items object with all seven buckets, flatten sports, team news
and team RSS results into the sports bucket, and sum the Gemini Flash
usage of real estate, sports, team news, team RSS and news. -/
def fetchAdditionalSourcing (cfg : ContentConfig) (out : FetchOutcomes)
    (olympicsActive worldcupActive : Bool) : AdditionalItems × CombinedUsage :=
  let results := gatherResults cfg out olympicsActive worldcupActive
  let sportsBucket :=
    (match results.sports with | some rs => rs.flatMap (fun r => r.items) | none => []) ++
    (match results.teamNews with | some rs => rs.flatMap (fun r => r.items) | none => []) ++
    (match results.teamRSS with | some rs => rs.flatMap (fun r => r.items) | none => [])
  let items : AdditionalItems :=
    { realEstate := match results.realEstate with | some r => r.items | none => []
      sports := sportsBucket
      iran := match results.iran with | some r => r.items | none => []
      news := match results.news with | some r => r.items | none => []
      surf := match results.surf with
        | some s => [{ title := "Surf Conditions", summary := s.summary,
                       source := "Surfline", date := none, url := none }]
        | none => []
      olympics := match results.olympics with
        | some s => [{ title := "Olympics Update", summary := s.summary,
                       source := "Olympics", date := none, url := none }]
        | none => []
      worldcup := match results.worldcup with
        | some s => [{ title := "World Cup Update", summary := s.summary,
                       source := "World Cup", date := none, url := none }]
        | none => [] }
  let u0 : GeminiFlashUsage := { promptTokens := 0, candidatesTokens := 0 }
  let u1 := addUsage u0 (match results.realEstate with | some r => r.usage | none => none)
  let u2 := ((match results.sports with | some rs => rs | none => []) : List SourceResult).foldl
    (fun a r => addUsage a r.usage) u1
  let u3 := ((match results.teamNews with | some rs => rs | none => []) : List SourceResult).foldl
    (fun a r => addUsage a r.usage) u2
  let u4 := ((match results.teamRSS with | some rs => rs | none => []) : List SourceResult).foldl
    (fun a r => addUsage a r.usage) u3
  let u5 := addUsage u4 (match results.news with | some r => r.usage | none => none)
  (items, { geminiFlash := u5 })

/-- Specification-side list of the usage records of the calls that ran
(the components whose results were gathered), in accumulation order. -/
def ranUsages (cfg : ContentConfig) (out : FetchOutcomes)
    (olympicsActive worldcupActive : Bool) : List (Option GeminiFlashUsage) :=
  let results := gatherResults cfg out olympicsActive worldcupActive
  (match results.realEstate with | some r => [r.usage] | none => []) ++
  (match results.sports with
    | some rs => rs.map (fun (r : SourceResult) => r.usage)
    | none => []) ++
  (match results.teamNews with
    | some rs => rs.map (fun (r : SourceResult) => r.usage)
    | none => []) ++
  (match results.teamRSS with
    | some rs => rs.map (fun (r : SourceResult) => r.usage)
    | none => []) ++
  (match results.news with | some r => [r.usage] | none => [])

/-- Prompt-token value of an optional usage record (null = zero). -/
def usagePrompt : Option GeminiFlashUsage → Nat
  | some g => g.promptTokens
  | none => 0

/-- Candidates-token value of an optional usage record (null = zero). -/
def usageCandidates : Option GeminiFlashUsage → Nat
  | some g => g.candidatesTokens
  | none => 0

/-! ## Cost tracker (`costTracker.js`) -/

/-- A heterogeneous usage record passed to `CostTracker.trackGemini`. -/
structure GeminiUsageRecord where
  geminiPro : Option GeminiFlashUsage
  geminiFlash : Option GeminiFlashUsage
  gemini2Flash : Option GeminiFlashUsage
  gemini25Flash : Option GeminiFlashUsage
deriving DecidableEq

/-- The token counters of `CostTracker.usage`; the dollar-cost fields are
floating point and outside this embedding. -/
structure TrackerUsage where
  geminiProInputTokens : Nat
  geminiProOutputTokens : Nat
  geminiFlashInputTokens : Nat
  geminiFlashOutputTokens : Nat
  gemini2FlashInputTokens : Nat
  gemini2FlashOutputTokens : Nat
  gemini25FlashInputTokens : Nat
  gemini25FlashOutputTokens : Nat
deriving DecidableEq

/-- The zero state set up by the `CostTracker` constructor. -/
def initialTrackerUsage : TrackerUsage :=
  { geminiProInputTokens := 0, geminiProOutputTokens := 0,
    geminiFlashInputTokens := 0, geminiFlashOutputTokens := 0,
    gemini2FlashInputTokens := 0, gemini2FlashOutputTokens := 0,
    gemini25FlashInputTokens := 0, gemini25FlashOutputTokens := 0 }

/-- Embedding of the token accumulation in `CostTracker.trackGemini`
(costTracker.js): each provider block adds its counters when the record
carries that provider (`promptTokens || 0` is the identity on `Nat`). -/
def trackGemini (st : TrackerUsage) (usage : GeminiUsageRecord) : TrackerUsage :=
  let st1 := match usage.geminiPro with
    | some u =>
      { st with geminiProInputTokens := st.geminiProInputTokens + u.promptTokens,
                geminiProOutputTokens := st.geminiProOutputTokens + u.candidatesTokens }
    | none => st
  let st2 := match usage.geminiFlash with
    | some u =>
      { st1 with geminiFlashInputTokens := st1.geminiFlashInputTokens + u.promptTokens,
                 geminiFlashOutputTokens := st1.geminiFlashOutputTokens + u.candidatesTokens }
    | none => st1
  let st3 := match usage.gemini2Flash with
    | some u =>
      { st2 with gemini2FlashInputTokens := st2.gemini2FlashInputTokens + u.promptTokens,
                 gemini2FlashOutputTokens := st2.gemini2FlashOutputTokens + u.candidatesTokens }
    | none => st2
  match usage.gemini25Flash with
  | some u =>
    { st3 with gemini25FlashInputTokens := st3.gemini25FlashInputTokens + u.promptTokens,
               gemini25FlashOutputTokens := st3.gemini25FlashOutputTokens + u.candidatesTokens }
  | none => st3

/-! ## Concrete instances used by witnesses and counterexamples -/

/-- A record for one day with empty payload. -/
def dayRecord (d : String) : EpisodeRecord :=
  { date := d, summary := "s", keyTopics := [], articles := none }

/-- Fourteen records with pairwise distinct dates, newest first. -/
def sampleEpisodes : List EpisodeRecord :=
  [dayRecord "d01", dayRecord "d02", dayRecord "d03", dayRecord "d04",
   dayRecord "d05", dayRecord "d06", dayRecord "d07", dayRecord "d08",
   dayRecord "d09", dayRecord "d10", dayRecord "d11", dayRecord "d12",
   dayRecord "d13", dayRecord "d14"]

/-- Day indices for the concrete dedup scenario: 2026-02-05 is day 100. -/
def sampleDayOf : String → Option Int :=
  fun s => if s = "2026-02-05" then some 100 else none

/-- A memory whose single record is five days old (day 100 when today is
day 105) and lists the article "Foo Bar". -/
def fooBarMemory : EpisodeMemory :=
  { episodes := [{ date := "2026-02-05", summary := "prior episode",
                   keyTopics := [], articles := some ["Foo Bar"] }] }

/-- Trivial JSON-parse stand-in: every body decodes to the empty memory. -/
def trivParse : String → Option EpisodeMemory := fun _ => some { episodes := [] }

/-- Trivial serializer stand-in. -/
def trivSerialize : EpisodeMemory → String := fun _ => "serialized"

/-- Identity tag-stripper for concrete runs. -/
def idStrip : String → String := fun s => s

/-- The Warriors team-name triple on the sample scoreboard. -/
def warriorsNames : EspnTeamNames :=
  { name := "Warriors", displayName := "Golden State Warriors", shortDisplayName := "GSW" }

/-- A Warriors scoreboard event. -/
def warriorsEvent : EspnEvent :=
  { id := "401", name := "Golden State Warriors at Los Angeles Lakers",
    statusDetail := "Final",
    competitions := [{ competitors := [{ team := warriorsNames }] }] }

/-- A successful Gemini response with a usage record. -/
def geminiRespOk : GeminiResponse :=
  { text := "recap text",
    usageMetadata := some { promptTokenCount := 10, candidatesTokenCount := 5 } }

/-- An oracle on which every remote call succeeds. -/
def sportsOracleOk : SportsOracle :=
  { scoreboard := .ok { events := some [warriorsEvent] }
    summary := .ok "summary-json"
    modelAvailable := true
    gemini := .ok geminiRespOk
    yesterday := "20260210"
    localeDate := "2/11/2026" }

/-- An oracle whose scoreboard call fails (transient source failure). -/
def sportsOracleFail : SportsOracle :=
  { scoreboard := .error (), summary := .error (), modelAvailable := true,
    gemini := .error (), yesterday := "20260210", localeDate := "2/11/2026" }

/-- A team-news oracle whose news call fails. -/
def teamNewsOracleFail : TeamNewsOracle :=
  { articles := .error (), modelAvailable := true, gemini := .error (),
    localeDate := "2/11/2026" }

/-- Trivial team-news parse stand-in. -/
def trivParseNews : String → Option (List NewsItem) := fun _ => none

/-- A configuration with only surf conditions enabled. -/
def surfOnlyConfig : ContentConfig :=
  { realEstateEnabled := false
    sports := { enabled := false, teams := [], includeTeamNews := false, events := [] }
    internationalRelationsEnabled := false
    newsEnabled := false
    surfEnabled := true }

/-- A sports oracle whose scoreboard call fails, with everything else
arbitrary. -/
def scoreboardFailOracle (s : Except Unit String) (m : Bool)
    (g : Except Unit GeminiResponse) (y ld : String) : SportsOracle :=
  { scoreboard := .error (), summary := s, modelAvailable := m,
    gemini := g, yesterday := y, localeDate := ld }

/-- A team-news oracle whose news call fails, with everything else
arbitrary. -/
def newsFailOracle (m : Bool) (g : Except Unit GeminiResponse) (ld : String) : TeamNewsOracle :=
  { articles := .error (), modelAvailable := m, gemini := g, localeDate := ld }

/-- A sample ESPN team-news article. -/
def sampleEspnArticle : EspnArticle :=
  { headline := "Trade completed", description := "desc", published := "2026-02-10" }

/-- A team-news oracle whose news and Gemini calls succeed. -/
def teamNewsOracleOk : TeamNewsOracle :=
  { articles := .ok (some [sampleEspnArticle]), modelAvailable := true,
    gemini := .ok geminiRespOk, localeDate := "2/11/2026" }

/-- A team-news oracle with given articles and Gemini response. -/
def parsedNewsOracle (arts : List EspnArticle) (resp : GeminiResponse) (ld : String) :
    TeamNewsOracle :=
  { articles := .ok (some arts), modelAvailable := true, gemini := .ok resp,
    localeDate := ld }

/-- The all-null usage record (a no-op for the tracker). -/
def nullUsageRecord : GeminiUsageRecord :=
  { geminiPro := none, geminiFlash := none, gemini2Flash := none, gemini25Flash := none }

/-- A present but zero-valued Gemini Flash usage record. -/
def zeroFlashUsageRecord : GeminiUsageRecord :=
  { geminiPro := none, geminiFlash := some { promptTokens := 0, candidatesTokens := 0 },
    gemini2Flash := none, gemini25Flash := none }

/-- Outcomes where the surf source failed: `fetchSurflineConditions`
returns its API-error placeholder instead of raising. -/
def surfFailOutcomes : FetchOutcomes :=
  { realEstate := emptySourceResult, sports := [], teamNews := [], teamRSS := [],
    iran := emptySourceResult, news := emptySourceResult,
    surf := fetchSurflineConditions (.error ()) ["5842041f4e65fad6a7708890"] "Santa Barbara",
    olympics := { summary := "" }, worldcup := { summary := "" } }

/-! ## Helper lemmas -/

theorem length_le_filter_add_countP {α : Type} (p : α → Bool) (l : List α) :
    l.length ≤ (l.filter p).length + l.countP (fun a => !p a) := by
  induction l with
  | nil => simp
  | cons a t ih =>
    simp only [List.filter_cons, List.countP_cons, List.length_cons]
    by_cases h : p a
    · simp [h]; omega
    · simp [h]; omega

theorem filter_take_of_countP_le {α : Type} (p : α → Bool) (l : List α) (n : Nat)
    (h : l.countP (fun a => !p a) ≤ 1) :
    ((l.take (n + 1)).filter p).take n = (l.filter p).take n := by
  by_cases hlen : l.length ≤ n + 1
  · rw [List.take_of_length_le hlen]
  · push_neg at hlen
    have hpre := List.take_prefix (n + 1) l
    have hcount : (l.take (n + 1)).countP (fun a => !p a) ≤ 1 :=
      le_trans ((List.take_sublist (n + 1) l).countP_le _) h
    have hlen2 : (l.take (n + 1)).length = n + 1 := by
      rw [List.length_take]; omega
    have hfl : n ≤ ((l.take (n + 1)).filter p).length := by
      have hb := length_le_filter_add_countP p (l.take (n + 1))
      omega
    obtain ⟨t, ht⟩ := hpre.filter p
    rw [← ht, List.take_append_of_le_length hfl]

theorem dedupByDate_countP_le (d : String) (L : List EpisodeRecord) :
    (dedupByDate L).countP (fun ep => ep.date == d) ≤ 1 := by
  induction L with
  | nil => simp [dedupByDate]
  | cons r rest ih =>
    simp only [dedupByDate, List.countP_cons]
    by_cases hd : r.date = d
    · have h0 : ((dedupByDate rest).filter (fun ep => ep.date != r.date)).countP
          (fun ep => ep.date == d) = 0 := by
        rw [List.countP_eq_zero]
        intro ep hep
        have hne := List.of_mem_filter hep
        simp only [bne_iff_ne, ne_eq] at hne
        simp [hd ▸ hne]
      simp [h0, hd]
    · have hsub := (List.filter_sublist (l := dedupByDate rest)
        (p := fun ep => ep.date != r.date)).countP_le (fun ep => ep.date == d)
      have hb : (r.date == d) = false := by simp [hd]
      simp only [hb]
      simp only [Bool.false_eq_true, if_false]
      omega

theorem addEpisodeToMemory_take_dedup (D : List EpisodeRecord) (r : EpisodeRecord)
    (h : D.countP (fun ep => ep.date == r.date) ≤ 1) :
    addEpisodeToMemory { episodes := D.take MAX_EPISODES } r
      = { episodes := (r :: D.filter (fun ep => ep.date != r.date)).take MAX_EPISODES } := by
  have h' : D.countP (fun ep => !(ep.date != r.date)) ≤ 1 := by
    have he : (fun ep : EpisodeRecord => !(ep.date != r.date))
        = (fun ep : EpisodeRecord => ep.date == r.date) := by
      funext ep; simp [bne]
    rw [he]; exact h
  show EpisodeMemory.mk _ = EpisodeMemory.mk _
  congr 1
  show ((r :: (D.take MAX_EPISODES).filter (fun ep => ep.date != r.date)).take MAX_EPISODES) = _
  rw [show MAX_EPISODES = 13 + 1 from rfl, List.take_succ_cons, List.take_succ_cons]
  congr 1
  exact filter_take_of_countP_le _ D 13 h'

theorem foldl_addEpisodeToMemory_eq (rs : List EpisodeRecord) :
    (rs.foldl addEpisodeToMemory { episodes := [] }).episodes
      = (dedupByDate rs.reverse).take MAX_EPISODES := by
  induction rs using List.reverseRecOn with
  | nil => simp [dedupByDate]
  | append_singleton rs r ih =>
    rw [List.foldl_append]
    simp only [List.foldl_cons, List.foldl_nil]
    have hmem : rs.foldl addEpisodeToMemory { episodes := [] }
        = { episodes := (dedupByDate rs.reverse).take MAX_EPISODES } := by
      rcases hq : rs.foldl addEpisodeToMemory { episodes := [] } with ⟨eps⟩
      have := ih
      rw [hq] at this
      simpa using this
    rw [hmem, addEpisodeToMemory_take_dedup _ _ (dedupByDate_countP_le _ _)]
    rw [List.reverse_append]
    simp [dedupByDate]

theorem getCoveredArticles_foldl (l : List EpisodeRecord) (acc : List String) :
    l.foldl (fun acc ep =>
      match ep.articles with
      | some arts => acc ++ arts
      | none => acc) acc
      = acc ++ l.flatMap (fun ep => ep.articles.getD []) := by
  induction l generalizing acc with
  | nil => simp
  | cons a t ih =>
    cases h : a.articles <;> simp [h, ih, List.append_assoc]

theorem mem_getCoveredArticles (dayOf : String → Option Int) (today : Int)
    (M : EpisodeMemory) (days : Int) (a : String) :
    a ∈ getCoveredArticles dayOf today M days ↔
      ∃ ep ∈ M.episodes,
        (∃ d, dayOf ep.date = some d ∧ today - days ≤ d) ∧ a ∈ ep.articles.getD [] := by
  unfold getCoveredArticles
  by_cases h : M.episodes.isEmpty
  · rw [if_pos h]
    rw [List.isEmpty_iff] at h
    simp [h]
  · rw [if_neg h]
    rw [getCoveredArticles_foldl, List.nil_append, List.mem_flatMap]
    constructor
    · rintro ⟨ep, hep, hmem⟩
      rw [List.mem_filter] at hep
      refine ⟨ep, hep.1, ?_, hmem⟩
      rcases hd : dayOf ep.date with _ | d
      · rw [hd] at hep; simp at hep
      · refine ⟨d, rfl, ?_⟩
        have := hep.2
        rw [hd] at this
        simpa using this
    · rintro ⟨ep, hep, ⟨d, hd, hle⟩, hmem⟩
      refine ⟨ep, ?_, hmem⟩
      rw [List.mem_filter]
      exact ⟨hep, by rw [hd]; simpa using hle⟩

theorem usagePrompt_none : usagePrompt none = 0 := rfl

theorem usageCandidates_none : usageCandidates none = 0 := rfl

theorem addUsage_promptTokens (acc : GeminiFlashUsage) (u : Option GeminiFlashUsage) :
    (addUsage acc u).promptTokens = acc.promptTokens + usagePrompt u := by
  cases u <;> simp [addUsage, usagePrompt]

theorem addUsage_candidatesTokens (acc : GeminiFlashUsage) (u : Option GeminiFlashUsage) :
    (addUsage acc u).candidatesTokens = acc.candidatesTokens + usageCandidates u := by
  cases u <;> simp [addUsage, usageCandidates]

theorem foldl_addUsage_promptTokens (l : List SourceResult) (acc : GeminiFlashUsage) :
    (l.foldl (fun a r => addUsage a r.usage) acc).promptTokens
      = acc.promptTokens + (l.map (fun r => usagePrompt r.usage)).sum := by
  induction l generalizing acc with
  | nil => simp
  | cons a t ih => simp [ih, addUsage_promptTokens, Nat.add_assoc]

theorem foldl_addUsage_candidatesTokens (l : List SourceResult) (acc : GeminiFlashUsage) :
    (l.foldl (fun a r => addUsage a r.usage) acc).candidatesTokens
      = acc.candidatesTokens + (l.map (fun r => usageCandidates r.usage)).sum := by
  induction l generalizing acc with
  | nil => simp
  | cons a t ih => simp [ih, addUsage_candidatesTokens, Nat.add_assoc]

theorem trackGemini_spec (st : TrackerUsage) (r : GeminiUsageRecord) :
    trackGemini st r =
      { geminiProInputTokens := st.geminiProInputTokens + usagePrompt r.geminiPro
        geminiProOutputTokens := st.geminiProOutputTokens + usageCandidates r.geminiPro
        geminiFlashInputTokens := st.geminiFlashInputTokens + usagePrompt r.geminiFlash
        geminiFlashOutputTokens := st.geminiFlashOutputTokens + usageCandidates r.geminiFlash
        gemini2FlashInputTokens := st.gemini2FlashInputTokens + usagePrompt r.gemini2Flash
        gemini2FlashOutputTokens := st.gemini2FlashOutputTokens + usageCandidates r.gemini2Flash
        gemini25FlashInputTokens := st.gemini25FlashInputTokens + usagePrompt r.gemini25Flash
        gemini25FlashOutputTokens := st.gemini25FlashOutputTokens
          + usageCandidates r.gemini25Flash } := by
  rcases r with ⟨p, f, f2, f25⟩
  cases p <;> cases f <;> cases f2 <;> cases f25 <;>
    simp [trackGemini, usagePrompt, usageCandidates]

theorem foldl_trackGemini_spec (records : List GeminiUsageRecord) (st : TrackerUsage) :
    records.foldl trackGemini st =
      { geminiProInputTokens := st.geminiProInputTokens
          + (records.map (fun r => usagePrompt r.geminiPro)).sum
        geminiProOutputTokens := st.geminiProOutputTokens
          + (records.map (fun r => usageCandidates r.geminiPro)).sum
        geminiFlashInputTokens := st.geminiFlashInputTokens
          + (records.map (fun r => usagePrompt r.geminiFlash)).sum
        geminiFlashOutputTokens := st.geminiFlashOutputTokens
          + (records.map (fun r => usageCandidates r.geminiFlash)).sum
        gemini2FlashInputTokens := st.gemini2FlashInputTokens
          + (records.map (fun r => usagePrompt r.gemini2Flash)).sum
        gemini2FlashOutputTokens := st.gemini2FlashOutputTokens
          + (records.map (fun r => usageCandidates r.gemini2Flash)).sum
        gemini25FlashInputTokens := st.gemini25FlashInputTokens
          + (records.map (fun r => usagePrompt r.gemini25Flash)).sum
        gemini25FlashOutputTokens := st.gemini25FlashOutputTokens
          + (records.map (fun r => usageCandidates r.gemini25Flash)).sum } := by
  induction records generalizing st with
  | nil => simp
  | cons a t ih =>
    rw [List.foldl_cons, ih, trackGemini_spec]
    simp [Nat.add_assoc]

theorem flatMap_items_eq_nil (rs : List SourceResult) (h : ∀ r ∈ rs, r.items = []) :
    rs.flatMap (fun r => r.items) = [] := by
  induction rs with
  | nil => rfl
  | cons a t ih =>
    have ha := h a (by simp)
    have ht := ih (fun r hr => h r (by simp [hr]))
    simp [ha, ht]

theorem collectFeedLinks_snd (dayOf : String → Option Int) (today : Int)
    (o : ArticlesOracle) (mem : EpisodeMemory) (fs : FeedSource) :
    (collectFeedLinks dayOf today o mem fs).2
      = { url := fs.url, timeout := some 10000 } := by
  unfold collectFeedLinks
  cases o.feed fs.url <;> rfl

theorem fetchArticleStep_requests (o : ArticlesOracle) (st : ArticleLoopState)
    (lr : ArticleLink) :
    (fetchArticleStep o st lr).requests
      = st.requests ++ [{ url := lr.link, timeout := some 15000 }] := by
  unfold fetchArticleStep
  rcases hp : o.page lr.link with _ | text0
  · rfl
  · by_cases h : (jsTake 15000 text0).length < 200
    · simp only [if_pos h]
    · simp only [if_neg h]
      rcases hg : o.gemini lr.link with _ | resp
      · rfl
      · rcases hm : resp.usageMetadata with _ | u <;> simp [hm]

theorem foldl_fetchArticleStep_requests (o : ArticlesOracle) (links : List ArticleLink)
    (st : ArticleLoopState) :
    (links.foldl (fetchArticleStep o) st).requests
      = st.requests
          ++ links.map (fun lr => { url := lr.link, timeout := some 15000 }) := by
  induction links generalizing st with
  | nil => simp
  | cons a t ih => simp [ih, fetchArticleStep_requests, List.append_assoc]

theorem ktnKeep_eq_some (stripTags : String → String) (dayOf : String → Option Int)
    (today : Int) (e : KTNEntry) (item : ContentItem) :
    ktnKeep stripTags dayOf today e = some item ↔
      jsTrim e.title ≠ "" ∧ jsTrim e.pubDate ≠ ""
        ∧ dayOf (jsTrim e.pubDate) = some today
        ∧ item = { title := jsTrim e.title,
                   summary := if jsTake 300 (stripTags (jsTrim e.content)) == ""
                     then jsTrim e.title
                     else jsTake 300 (stripTags (jsTrim e.content)),
                   date := some (jsTrim e.pubDate), source := "Axios Newsletters",
                   url := none } := by
  simp only [ktnKeep]
  by_cases ht : jsTrim e.title = ""
  · simp [ht]
  · by_cases hp2 : jsTrim e.pubDate = ""
    · simp [hp2]
    · have hc : ((jsTrim e.title == "") || (jsTrim e.pubDate == "")) = false := by
        simp [ht, hp2]
      rw [hc]
      simp only [Bool.false_eq_true, if_false]
      rcases hd : dayOf (jsTrim e.pubDate) with _ | d
      · simp [ht, hp2]
      · by_cases he : d = today
        · subst he
          simp only [beq_self_eq_true, if_true, Option.some.injEq]
          constructor
          · intro h
            exact ⟨ht, hp2, by simp, h.symm⟩
          · rintro ⟨-, -, -, h⟩
            exact h.symm
        · have hbq : (d == today) = false := by simpa using he
          simp only [hbq, Bool.false_eq_true, if_false]
          constructor
          · intro h
            simp at h
          · rintro ⟨-, -, hsome, -⟩
            injection hsome with h
            exact absurd h he

theorem fetchTeamNews_requests (parseNews : String → Option (List NewsItem))
    (o : TeamNewsOracle) (league teamName espnNewsId : String) :
    ∀ r ∈ (fetchTeamNews parseNews o league teamName espnNewsId).2,
      r.timeout = some 10000 := by
  intro r hr
  simp only [fetchTeamNews] at hr
  repeat' split at hr
  all_goals simp_all

theorem fetchSportsGame_requests (o : SportsOracle) (league teamName espnApiName : String) :
    ∀ r ∈ (fetchSportsGame o league teamName espnApiName).2, r.timeout = none := by
  intro r hr
  simp only [fetchSportsGame] at hr
  repeat' split at hr
  all_goals (simp_all <;> (rcases hr with rfl | rfl <;> rfl))

theorem fetchArticles_feedRequests_timeout (dayOf : String → Option Int) (today : Int)
    (o : ArticlesOracle) (cfg : ArticlesConfig) (mem : EpisodeMemory) :
    ∀ r ∈ (fetchArticles dayOf today o cfg mem).feedRequests, r.timeout = some 10000 := by
  intro r hr
  simp only [fetchArticles] at hr
  repeat' split at hr
  all_goals simp_all
  all_goals
    (obtain ⟨fs, hfs, hreq⟩ := hr
     rw [collectFeedLinks_snd] at hreq
     rw [← hreq])

theorem fetchArticles_pageRequests_timeout (dayOf : String → Option Int) (today : Int)
    (o : ArticlesOracle) (cfg : ArticlesConfig) (mem : EpisodeMemory) :
    ∀ r ∈ (fetchArticles dayOf today o cfg mem).pageRequests, r.timeout = some 15000 := by
  intro r hr
  simp only [fetchArticles] at hr
  repeat' split at hr
  all_goals simp_all
  all_goals
    (rw [foldl_fetchArticleStep_requests] at hr
     simp only [List.nil_append, List.mem_map] at hr
     obtain ⟨lr, hlr, hreq⟩ := hr
     rw [← hreq])

/-! ## Claim theorems -/

/-- C1: `addEpisodeToMemory` always returns at most `MAX_EPISODES = 14`
episodes; a fold of upserts starting from the empty memory retains exactly
the most-recently-upserted distinct dates, newest first, truncated to 14;
and upserting a fresh date into a memory of 14 distinct other dates yields
exactly 14 records — the new one plus the first 13 old ones, the oldest
evicted. -/
theorem c1_bounded_window :
    (∀ (M : EpisodeMemory) (R : EpisodeRecord),
        (addEpisodeToMemory M R).episodes.length ≤ MAX_EPISODES)
    ∧ (∀ rs : List EpisodeRecord,
        (rs.foldl addEpisodeToMemory { episodes := [] }).episodes
          = (dedupByDate rs.reverse).take MAX_EPISODES)
    ∧ (∀ (M : EpisodeMemory) (R : EpisodeRecord),
        M.episodes.length = 14 →
        (∀ ep ∈ M.episodes, ep.date ≠ R.date) →
        (addEpisodeToMemory M R).episodes = R :: M.episodes.take 13
          ∧ (addEpisodeToMemory M R).episodes.length = 14) := by
  refine ⟨fun M R => ?_, foldl_addEpisodeToMemory_eq, fun M R hlen hdate => ?_⟩
  · exact List.length_take_le _ _
  · have hfilter : M.episodes.filter (fun ep => ep.date != R.date) = M.episodes := by
      rw [List.filter_eq_self]
      intro ep hep
      simpa using hdate ep hep
    have heq : (addEpisodeToMemory M R).episodes = R :: M.episodes.take 13 := by
      show ((R :: M.episodes.filter (fun ep => ep.date != R.date)).take MAX_EPISODES) = _
      rw [hfilter, show MAX_EPISODES = 13 + 1 from rfl, List.take_succ_cons]
    refine ⟨heq, ?_⟩
    rw [heq]
    simp [List.length_take, hlen]

/-- C1 witness: upserting date `d00` into the 14-day sample memory keeps
the first 13 old records and evicts the oldest. -/
theorem c1_bounded_window_witness :
    (addEpisodeToMemory { episodes := sampleEpisodes } (dayRecord "d00")).episodes
      = dayRecord "d00" :: sampleEpisodes.take 13 :=
  (c1_bounded_window.2.2 { episodes := sampleEpisodes } (dayRecord "d00")
    (by decide) (by decide)).1

/-- C2: the upsert is idempotent — applying `addEpisodeToMemory` twice with
the same record equals applying it once (the entry for the record's date is
replaced, not duplicated). -/
theorem c2_upsert_idempotent (M : EpisodeMemory) (R : EpisodeRecord) :
    addEpisodeToMemory (addEpisodeToMemory M R) R = addEpisodeToMemory M R := by
  show EpisodeMemory.mk _ = EpisodeMemory.mk _
  congr 1
  show ((R :: ((R :: M.episodes.filter (fun ep => ep.date != R.date)).take MAX_EPISODES).filter
      (fun ep => ep.date != R.date)).take MAX_EPISODES) = _
  rw [show MAX_EPISODES = 13 + 1 from rfl, List.take_succ_cons, List.take_succ_cons]
  congr 1
  rw [List.filter_cons]
  have hR : (R.date != R.date) = false := by simp
  rw [hR]
  simp only [Bool.false_eq_true, if_false]
  have hall : ((M.episodes.filter (fun ep => ep.date != R.date)).take 13).filter
      (fun ep => ep.date != R.date)
      = (M.episodes.filter (fun ep => ep.date != R.date)).take 13 := by
    rw [List.filter_eq_self]
    intro ep hep
    have h1 : ep ∈ M.episodes.filter (fun ep => ep.date != R.date) :=
      List.mem_of_mem_take hep
    exact (List.mem_filter.mp h1).2
  rw [hall, List.take_take, min_self]

/-- C3 counterexample: a backend read whose payload carries the empty
string as its sha yields a non-null version token `some ""`, yet the
subsequent commit body omits the sha field (JS truthiness of
`...(sha ? ... : ...)`), so "included exactly when non-null" fails. -/
theorem c3_counterexample :
    getEpisodeMemory trivParse (.success "body" "") = .ok ({ episodes := [] }, some "")
    ∧ (commitEpisodeMemory trivSerialize { episodes := [] } (some "") "benpod").sha = none :=
  ⟨rfl, rfl⟩

/-- C3 (amended): a 404 read maps to the empty memory with a null token
(success, not failure); any other read error propagates; and the commit
body carries the sha field exactly when the token from the preceding read
is non-null and non-empty — in particular the first-ever write (after a
404 read) is sent without a version token. -/
theorem c3_memory_read_write (parse : String → Option EpisodeMemory)
    (serialize : EpisodeMemory → String) :
    (getEpisodeMemory parse (.httpError 404) = .ok ({ episodes := [] }, none))
    ∧ (∀ s : Nat, s ≠ 404 → getEpisodeMemory parse (.httpError s) = .error (.httpError s))
    ∧ (getEpisodeMemory parse .netError = .error .netError)
    ∧ (∀ content sha mem, parse content = some mem →
        getEpisodeMemory parse (.success content sha) = .ok (mem, some sha))
    ∧ (∀ content sha, parse content = none →
        getEpisodeMemory parse (.success content sha) = .error .parseError)
    ∧ (∀ mem cfgId sha,
        ((commitEpisodeMemory serialize mem sha cfgId).sha ≠ none ↔
          ∃ s, sha = some s ∧ s ≠ ""))
    ∧ (∀ mem cfgId, (commitEpisodeMemory serialize mem none cfgId).sha = none) := by
  refine ⟨rfl, fun s hs => ?_, rfl, fun content sha mem hp => ?_, fun content sha hp => ?_,
    fun mem cfgId sha => ?_, fun mem cfgId => rfl⟩
  · simp [getEpisodeMemory, hs]
  · simp [getEpisodeMemory, hp]
  · simp [getEpisodeMemory, hp]
  · cases sha with
    | none => simp [commitEpisodeMemory]
    | some s =>
      by_cases h : s = ""
      · subst h; simp [commitEpisodeMemory]
      · simp [commitEpisodeMemory, h]

/-- C3 witness: a 500 read propagates as an error; a parse-clean success
returns the parsed memory with its sha. -/
theorem c3_memory_read_write_witness :
    getEpisodeMemory trivParse (.httpError 500) = .error (.httpError 500)
    ∧ getEpisodeMemory trivParse (.success "body" "abc") = .ok ({ episodes := [] }, some "abc") :=
  ⟨(c3_memory_read_write trivParse trivSerialize).2.1 500 (by decide),
   (c3_memory_read_write trivParse trivSerialize).2.2.2.1 "body" "abc" _ rfl⟩

/-- C7: `hasArticleBeenCovered` is true exactly when some episode whose
date parses to a day on or after `today - days` lists an article whose
lowercased, trimmed form equals that of the queried title; concretely, for
a record 5 days old listing "Foo Bar", the query "  foo bar  " matches in
a 7-day window and "Foo Bar" does not match in a 3-day window. -/
theorem c7_dedup_covered :
    (∀ (dayOf : String → Option Int) (today : Int) (M : EpisodeMemory)
        (title : String) (days : Int),
      hasArticleBeenCovered dayOf today M title days = true ↔
        ∃ ep ∈ M.episodes,
          (∃ d, dayOf ep.date = some d ∧ today - days ≤ d) ∧
          ∃ a ∈ ep.articles.getD [],
            jsTrim (jsToLower a) = jsTrim (jsToLower title))
    ∧ hasArticleBeenCovered sampleDayOf 105 fooBarMemory "  foo bar  " 7 = true
    ∧ hasArticleBeenCovered sampleDayOf 105 fooBarMemory "Foo Bar" 3 = false := by
  refine ⟨fun dayOf today M title days => ?_, by decide, by decide⟩
  unfold hasArticleBeenCovered
  rw [List.any_eq_true]
  constructor
  · rintro ⟨a, ha, heq⟩
    rw [mem_getCoveredArticles] at ha
    obtain ⟨ep, hep, hwin, hmem⟩ := ha
    exact ⟨ep, hep, hwin, a, hmem, by simpa using heq⟩
  · rintro ⟨ep, hep, hwin, a, hmem, heq⟩
    refine ⟨a, ?_, by simpa using heq⟩
    rw [mem_getCoveredArticles]
    exact ⟨ep, hep, hwin, hmem⟩

/-- C4 counterexample: with only surf enabled and the surf source failing
(its client returns the API-error placeholder), the surf bucket holds one
placeholder item rather than being empty. -/
theorem c4_counterexample :
    (fetchAdditionalSourcing surfOnlyConfig surfFailOutcomes false false).1.surf
        = [{ title := "Surf Conditions",
             summary := "Surf conditions unavailable for Santa Barbara (API error)",
             source := "Surfline", date := none, url := none }]
    ∧ (fetchAdditionalSourcing surfOnlyConfig surfFailOutcomes false false).1.surf ≠ [] :=
  ⟨by decide, by decide⟩

/-- C4 (amended): every category key of the aggregation result is present
and bound to a sequence; a disabled category's bucket is empty (for
olympics and worldcup: when no event of that type is configured, when the
event is disabled, or when it is gated to active periods and not active),
and the list-based buckets (real estate, sports, iran, news) are empty
when their sources produced nothing — but the surf, olympics and worldcup
buckets, whenever their fetch ran, hold exactly one summary item, even
when the source failed (a placeholder summary, not an empty bucket). -/
theorem c4_bucket_totality (cfg : ContentConfig) (out : FetchOutcomes) (oa wa : Bool) :
    ((cfg.realEstateEnabled = false →
        (fetchAdditionalSourcing cfg out oa wa).1.realEstate = [])
    ∧ (cfg.sports.enabled = false →
        (fetchAdditionalSourcing cfg out oa wa).1.sports = [])
    ∧ (cfg.internationalRelationsEnabled = false →
        (fetchAdditionalSourcing cfg out oa wa).1.iran = [])
    ∧ (cfg.newsEnabled = false →
        (fetchAdditionalSourcing cfg out oa wa).1.news = [])
    ∧ (cfg.surfEnabled = false →
        (fetchAdditionalSourcing cfg out oa wa).1.surf = [])
    ∧ (cfg.sports.events.find? (fun e => e.type == "olympics") = none →
        (fetchAdditionalSourcing cfg out oa wa).1.olympics = [])
    ∧ (cfg.sports.events.find? (fun e => e.type == "worldcup") = none →
        (fetchAdditionalSourcing cfg out oa wa).1.worldcup = [])
    ∧ (∀ ev, cfg.sports.events.find? (fun e => e.type == "olympics") = some ev →
        ev.enabled = false →
        (fetchAdditionalSourcing cfg out oa wa).1.olympics = [])
    ∧ (∀ ev, cfg.sports.events.find? (fun e => e.type == "olympics") = some ev →
        ev.onlyDuringEvent = true → oa = false →
        (fetchAdditionalSourcing cfg out oa wa).1.olympics = [])
    ∧ (∀ ev, cfg.sports.events.find? (fun e => e.type == "worldcup") = some ev →
        ev.enabled = false →
        (fetchAdditionalSourcing cfg out oa wa).1.worldcup = [])
    ∧ (∀ ev, cfg.sports.events.find? (fun e => e.type == "worldcup") = some ev →
        ev.onlyDuringEvent = true → wa = false →
        (fetchAdditionalSourcing cfg out oa wa).1.worldcup = []))
    ∧ ((cfg.realEstateEnabled = true →
        (fetchAdditionalSourcing cfg out oa wa).1.realEstate = out.realEstate.items)
    ∧ (cfg.sports.enabled = true →
        (∀ r ∈ out.sports, r.items = []) →
        (∀ r ∈ out.teamNews, r.items = []) →
        (∀ r ∈ out.teamRSS, r.items = []) →
        (fetchAdditionalSourcing cfg out oa wa).1.sports = [])
    ∧ (cfg.surfEnabled = true →
        (fetchAdditionalSourcing cfg out oa wa).1.surf
          = [{ title := "Surf Conditions", summary := out.surf.summary,
               source := "Surfline", date := none, url := none }])
    ∧ (cfg.internationalRelationsEnabled = true →
        (fetchAdditionalSourcing cfg out oa wa).1.iran = out.iran.items)
    ∧ (cfg.newsEnabled = true →
        (fetchAdditionalSourcing cfg out oa wa).1.news = out.news.items)
    ∧ (∀ ev, cfg.sports.events.find? (fun e => e.type == "olympics") = some ev →
        ev.enabled = true → (ev.onlyDuringEvent = false ∨ oa = true) →
        (fetchAdditionalSourcing cfg out oa wa).1.olympics
          = [{ title := "Olympics Update", summary := out.olympics.summary,
               source := "Olympics", date := none, url := none }])
    ∧ (∀ ev, cfg.sports.events.find? (fun e => e.type == "worldcup") = some ev →
        ev.enabled = true → (ev.onlyDuringEvent = false ∨ wa = true) →
        (fetchAdditionalSourcing cfg out oa wa).1.worldcup
          = [{ title := "World Cup Update", summary := out.worldcup.summary,
               source := "World Cup", date := none, url := none }])) := by
  refine ⟨⟨fun h => ?_, fun h => ?_, fun h => ?_, fun h => ?_, fun h => ?_,
    fun h => ?_, fun h => ?_, fun ev hev hen => ?_, fun ev hev hod ha => ?_,
    fun ev hev hen => ?_, fun ev hev hod ha => ?_⟩,
    fun h => ?_, fun h h1 h2 h3 => ?_, fun h => ?_, fun h => ?_, fun h => ?_,
    fun ev hev hen hod => ?_, fun ev hev hen hod => ?_⟩
  · simp [fetchAdditionalSourcing, gatherResults, h]
  · simp [fetchAdditionalSourcing, gatherResults, h]
  · simp [fetchAdditionalSourcing, gatherResults, h]
  · simp [fetchAdditionalSourcing, gatherResults, h]
  · simp [fetchAdditionalSourcing, gatherResults, h]
  · simp [fetchAdditionalSourcing, gatherResults, h]
  · simp [fetchAdditionalSourcing, gatherResults, h]
  · simp [fetchAdditionalSourcing, gatherResults, hev, hen]
  · simp [fetchAdditionalSourcing, gatherResults, hev, hod, ha]
  · simp [fetchAdditionalSourcing, gatherResults, hev, hen]
  · simp [fetchAdditionalSourcing, gatherResults, hev, hod, ha]
  · simp [fetchAdditionalSourcing, gatherResults, h]
  · have e1 := flatMap_items_eq_nil _ h1
    have e2 := flatMap_items_eq_nil _ h2
    have e3 := flatMap_items_eq_nil _ h3
    cases hinc : cfg.sports.includeTeamNews <;>
      cases hrss : (cfg.sports.teams.filter (fun t => t.rssFeedUrl != "")).isEmpty <;>
      simp [fetchAdditionalSourcing, gatherResults, h, hinc, hrss, e1, e2, e3]
  · simp [fetchAdditionalSourcing, gatherResults, h]
  · simp [fetchAdditionalSourcing, gatherResults, h]
  · simp [fetchAdditionalSourcing, gatherResults, h]
  · rcases hod with h | h <;> simp [fetchAdditionalSourcing, gatherResults, hev, hen, h]
  · rcases hod with h | h <;> simp [fetchAdditionalSourcing, gatherResults, hev, hen, h]

/-- C4 witness: at the concrete surf-only configuration the disabled
real-estate bucket is empty while the enabled surf bucket carries the
single summary item. -/
theorem c4_bucket_totality_witness :
    (fetchAdditionalSourcing surfOnlyConfig surfFailOutcomes false false).1.realEstate = []
    ∧ (fetchAdditionalSourcing surfOnlyConfig surfFailOutcomes false false).1.surf
        = [{ title := "Surf Conditions", summary := surfFailOutcomes.surf.summary,
             source := "Surfline", date := none, url := none }] :=
  ⟨(c4_bucket_totality surfOnlyConfig surfFailOutcomes false false).1.1 rfl,
   (c4_bucket_totality surfOnlyConfig surfFailOutcomes false false).2.2.2.1 rfl⟩

/-- C5 counterexample: when the Gemini reply for team news fails to parse
as JSON, `fetchTeamNews` returns empty items but keeps the non-null usage
record of the Gemini call — not the `{ items: [], usage: null }` the claim
promises for every parse failure. -/
theorem c5_counterexample :
    (fetchTeamNews trivParseNews teamNewsOracleOk "nba" "Warriors" "9").1.items = []
    ∧ (fetchTeamNews trivParseNews teamNewsOracleOk "nba" "Warriors" "9").1.usage
        = some { promptTokens := 10, candidatesTokens := 5 }
    ∧ (fetchTeamNews trivParseNews teamNewsOracleOk "nba" "Warriors" "9").1.usage ≠ none :=
  ⟨rfl, rfl, by decide⟩

/-- C5 (amended): no fetcher propagates an error — for every league and
every failure point (feed or scrape transport, scoreboard call, summary
call, Gemini call with the model available, team-news call, team-news
Gemini call) the result is the empty `{ items: [], usage: null }`; a
Gemini JSON-parse failure in `fetchTeamNews` yields empty items while
keeping the Gemini call's usage record; and in the aggregator a source
that reduced to the empty result leaves the combined sports bucket —
across the sports, team-news and team-RSS components — exactly as if it
had not been there, so it cannot change what any other source
contributes. -/
theorem c5_source_isolation :
    (∀ (stripTags : String → String) (url sourceName : String) (maxItems : Nat),
        fetchRSSFeed stripTags (.error ()) url sourceName maxItems
          = ([], [{ url := url, timeout := some 10000 }]))
    ∧ (∀ (url sourceName : String) (sel : ScrapeSelectors) (maxItems : Nat),
        scrapeBlog (.error ()) url sourceName sel maxItems
          = ([], [{ url := url, timeout := some 10000 }]))
    ∧ (∀ (o : SportsOracle) (league teamName espnApiName : String),
        o.scoreboard = .error () →
        (fetchSportsGame o league teamName espnApiName).1 = emptySourceResult)
    ∧ (∀ (o : SportsOracle) (league teamName espnApiName : String),
        o.summary = .error () →
        (fetchSportsGame o league teamName espnApiName).1 = emptySourceResult)
    ∧ (∀ (o : SportsOracle) (league teamName espnApiName : String),
        o.gemini = .error () → o.modelAvailable = true →
        (fetchSportsGame o league teamName espnApiName).1 = emptySourceResult)
    ∧ (∀ (parseNews : String → Option (List NewsItem)) (o : TeamNewsOracle)
        (league teamName espnNewsId : String),
        o.articles = .error () →
        (fetchTeamNews parseNews o league teamName espnNewsId).1 = emptySourceResult)
    ∧ (∀ (parseNews : String → Option (List NewsItem)) (o : TeamNewsOracle)
        (league teamName espnNewsId : String),
        o.gemini = .error () →
        (fetchTeamNews parseNews o league teamName espnNewsId).1 = emptySourceResult)
    ∧ (∀ (parseNews : String → Option (List NewsItem)) (arts : List EspnArticle)
        (resp : GeminiResponse) (ld league sp teamName espnNewsId : String),
        sportPath league = some sp → espnNewsId ≠ "" → arts ≠ [] →
        parseNews resp.text = none →
        (fetchTeamNews parseNews (parsedNewsOracle arts resp ld) league teamName espnNewsId).1
          = { items := [],
              usage := resp.usageMetadata.map (fun u =>
                { promptTokens := u.promptTokenCount,
                  candidatesTokens := u.candidatesTokenCount }) })
    ∧ (∀ (cfg : ContentConfig) (out : FetchOutcomes) (pre post : List SourceResult)
        (oa wa : Bool),
        (fetchAdditionalSourcing cfg
            { out with sports := pre ++ emptySourceResult :: post } oa wa).1.sports
          = (fetchAdditionalSourcing cfg { out with sports := pre ++ post } oa wa).1.sports)
    ∧ (∀ (cfg : ContentConfig) (out : FetchOutcomes) (pre post : List SourceResult)
        (oa wa : Bool),
        (fetchAdditionalSourcing cfg
            { out with teamNews := pre ++ emptySourceResult :: post } oa wa).1.sports
          = (fetchAdditionalSourcing cfg { out with teamNews := pre ++ post } oa wa).1.sports)
    ∧ (∀ (cfg : ContentConfig) (out : FetchOutcomes) (pre post : List SourceResult)
        (oa wa : Bool),
        (fetchAdditionalSourcing cfg
            { out with teamRSS := pre ++ emptySourceResult :: post } oa wa).1.sports
          = (fetchAdditionalSourcing cfg { out with teamRSS := pre ++ post } oa wa).1.sports) := by
  refine ⟨fun stripTags url sourceName maxItems => rfl,
    fun url sourceName sel maxItems => rfl,
    fun o league teamName espnApiName h => ?_,
    fun o league teamName espnApiName h => ?_,
    fun o league teamName espnApiName h hm => ?_,
    fun parseNews o league teamName espnNewsId h => ?_,
    fun parseNews o league teamName espnNewsId h => ?_,
    fun parseNews arts resp ld league sp teamName espnNewsId hsp hid harts hp => ?_,
    ?_, ?_, ?_⟩
  · simp only [fetchSportsGame]
    repeat' split
    all_goals simp_all
  · simp only [fetchSportsGame]
    repeat' split
    all_goals simp_all
  · simp only [fetchSportsGame]
    repeat' split
    all_goals simp_all
  · simp only [fetchTeamNews]
    repeat' split
    all_goals simp_all
  · simp only [fetchTeamNews]
    repeat' split
    all_goals simp_all
  · simp only [fetchTeamNews, parsedNewsOracle]
    repeat' split
    all_goals simp_all [List.isEmpty_iff]
  · intro cfg out pre post oa wa
    cases hsp : cfg.sports.enabled <;>
      simp [fetchAdditionalSourcing, gatherResults, hsp, emptySourceResult]
  · intro cfg out pre post oa wa
    cases hsp : cfg.sports.enabled <;>
      cases hinc : cfg.sports.includeTeamNews <;>
      simp [fetchAdditionalSourcing, gatherResults, hsp, hinc, emptySourceResult]
  · intro cfg out pre post oa wa
    cases hsp : cfg.sports.enabled <;>
      cases hrss : (cfg.sports.teams.filter (fun t => t.rssFeedUrl != "")).isEmpty <;>
      simp [fetchAdditionalSourcing, gatherResults, hsp, hrss, emptySourceResult]

/-- C5 witness: the failing-scoreboard conjunct at a concrete mlb oracle
and the parse-failure conjunct at a concrete nfl oracle. -/
theorem c5_source_isolation_witness :
    (fetchSportsGame sportsOracleFail "mlb" "Giants" "giants").1 = emptySourceResult
    ∧ (fetchTeamNews trivParseNews
          (parsedNewsOracle [sampleEspnArticle] geminiRespOk "2/11/2026")
          "nfl" "49ers" "9").1
        = { items := [], usage := some { promptTokens := 10, candidatesTokens := 5 } } := by
  constructor
  · exact c5_source_isolation.2.2.1 sportsOracleFail "mlb" "Giants" "giants" rfl
  · have h := c5_source_isolation.2.2.2.2.2.2.2.1 trivParseNews [sampleEspnArticle]
      geminiRespOk "2/11/2026" "nfl" "football/nfl" "49ers" "9" (by decide) (by decide)
      (by decide) rfl
    simpa [geminiRespOk] using h

/-- C6: the combined usage of `fetchAdditionalSourcing` equals the
field-wise sum of the usage of the calls that ran (null usage contributes
zero), and folding `CostTracker.trackGemini` over any list of records
yields, per provider, the field-wise sums of their token counts; the
all-null record is an identity and a zero-valued record adds nothing but
is not dropped. -/
theorem c6_usage_additivity :
    (∀ (cfg : ContentConfig) (out : FetchOutcomes) (oa wa : Bool),
        (fetchAdditionalSourcing cfg out oa wa).2.geminiFlash.promptTokens
            = ((ranUsages cfg out oa wa).map usagePrompt).sum
        ∧ (fetchAdditionalSourcing cfg out oa wa).2.geminiFlash.candidatesTokens
            = ((ranUsages cfg out oa wa).map usageCandidates).sum)
    ∧ (∀ records : List GeminiUsageRecord,
        (records.foldl trackGemini initialTrackerUsage).geminiFlashInputTokens
            = (records.map (fun r => usagePrompt r.geminiFlash)).sum
        ∧ (records.foldl trackGemini initialTrackerUsage).geminiFlashOutputTokens
            = (records.map (fun r => usageCandidates r.geminiFlash)).sum
        ∧ (records.foldl trackGemini initialTrackerUsage).geminiProInputTokens
            = (records.map (fun r => usagePrompt r.geminiPro)).sum
        ∧ (records.foldl trackGemini initialTrackerUsage).geminiProOutputTokens
            = (records.map (fun r => usageCandidates r.geminiPro)).sum
        ∧ (records.foldl trackGemini initialTrackerUsage).gemini2FlashInputTokens
            = (records.map (fun r => usagePrompt r.gemini2Flash)).sum
        ∧ (records.foldl trackGemini initialTrackerUsage).gemini2FlashOutputTokens
            = (records.map (fun r => usageCandidates r.gemini2Flash)).sum
        ∧ (records.foldl trackGemini initialTrackerUsage).gemini25FlashInputTokens
            = (records.map (fun r => usagePrompt r.gemini25Flash)).sum
        ∧ (records.foldl trackGemini initialTrackerUsage).gemini25FlashOutputTokens
            = (records.map (fun r => usageCandidates r.gemini25Flash)).sum)
    ∧ (∀ st : TrackerUsage, trackGemini st nullUsageRecord = st)
    ∧ (∀ st : TrackerUsage, trackGemini st zeroFlashUsageRecord = st) := by
  refine ⟨fun cfg out oa wa => ?_, fun records => ?_, fun st => ?_, fun st => ?_⟩
  · constructor
    · simp only [fetchAdditionalSourcing, ranUsages]
      set g := gatherResults cfg out oa wa with hg
      obtain ⟨ore, osp, otn, otr, oir, one, osu, ool, owc⟩ := g
      rcases ore with _ | re <;> rcases osp with _ | sp <;> rcases otn with _ | tn <;>
        rcases otr with _ | tr <;> rcases one with _ | nw <;>
        simp [foldl_addUsage_promptTokens, addUsage_promptTokens, usagePrompt_none,
          List.map_map, Function.comp_def, List.map_append, List.sum_append] <;> omega
    · simp only [fetchAdditionalSourcing, ranUsages]
      set g := gatherResults cfg out oa wa with hg
      obtain ⟨ore, osp, otn, otr, oir, one, osu, ool, owc⟩ := g
      rcases ore with _ | re <;> rcases osp with _ | sp <;> rcases otn with _ | tn <;>
        rcases otr with _ | tr <;> rcases one with _ | nw <;>
        simp [foldl_addUsage_candidatesTokens, addUsage_candidatesTokens, usageCandidates_none,
          List.map_map, Function.comp_def, List.map_append, List.sum_append] <;> omega
  · rw [foldl_trackGemini_spec]
    simp [initialTrackerUsage]
  · simp [trackGemini, nullUsageRecord]
  · simp [trackGemini, zeroFlashUsageRecord]

/-- C8 counterexample: an unknown league ("soccer") makes `fetchSportsGame`
and `fetchTeamNews` return the ordinary empty fetch result
`{ items: [], usage: null }` — the very same value a transient scoreboard
failure produces — rather than surfacing a caller-visible configuration
error. -/
theorem c8_counterexample :
    (fetchSportsGame sportsOracleOk "soccer" "Chelsea" "chelsea").1 = emptySourceResult
    ∧ (fetchSportsGame sportsOracleFail "nba" "Warriors" "warriors").1 = emptySourceResult
    ∧ (fetchTeamNews trivParseNews teamNewsOracleFail "soccer" "Chelsea" "359").1
        = emptySourceResult :=
  ⟨rfl, rfl, rfl⟩

/-- C8 (amended): a league identifier outside nba/mlb/nfl is logged and
reduces to the empty fetch result `{ items: [], usage: null }` with no
request issued — indistinguishable from a transient source failure for the
caller; no fatal configuration error is raised. -/
theorem c8_unknown_league :
    (∀ (o : SportsOracle) (league teamName espnApiName : String),
        leagueMap (jsToLower league) = none →
        fetchSportsGame o league teamName espnApiName = (emptySourceResult, []))
    ∧ (∀ (parseNews : String → Option (List NewsItem)) (o : TeamNewsOracle)
        (league teamName espnNewsId : String),
        sportPath league = none →
        fetchTeamNews parseNews o league teamName espnNewsId = (emptySourceResult, [])) := by
  constructor
  · intro o league teamName espnApiName h
    simp [fetchSportsGame, h]
  · intro parseNews o league teamName espnNewsId h
    cases he : espnNewsId == "" <;> simp [fetchTeamNews, he, h]

/-- C8 witness: the unknown league "soccer" at concrete oracles. -/
theorem c8_unknown_league_witness :
    fetchSportsGame sportsOracleOk "soccer" "Chelsea" "chelsea" = (emptySourceResult, [])
    ∧ fetchTeamNews trivParseNews teamNewsOracleFail "soccer" "Chelsea" "359"
        = (emptySourceResult, []) :=
  ⟨c8_unknown_league.1 sportsOracleOk "soccer" "Chelsea" "chelsea" (by decide),
   c8_unknown_league.2 trivParseNews teamNewsOracleFail "soccer" "Chelsea" "359" (by decide)⟩

/-- C9 counterexample: a successful `fetchSportsGame` run issues its two
ESPN calls (scoreboard and summary) with no timeout option at all. -/
theorem c9_counterexample :
    ((fetchSportsGame sportsOracleOk "nba" "Warriors" "warriors").2.map
        (fun r => r.timeout)) = [none, none]
    ∧ (fetchSportsGame sportsOracleOk "nba" "Warriors" "warriors").2.length = 2 :=
  ⟨rfl, rfl⟩

/-- C9 (amended): the feed, scrape, team-news and newsletter calls carry a
10-second timeout and the article-page fetches a 15-second timeout, but the
ESPN scoreboard/summary calls of `fetchSportsGame` are issued with no
timeout. -/
theorem c9_timeouts :
    (∀ (stripTags : String → String) (o : Except Unit (List RawFeedItem))
        (url sourceName : String) (maxItems : Nat) (r : HttpRequest),
        r ∈ (fetchRSSFeed stripTags o url sourceName maxItems).2 →
          r.timeout = some 10000)
    ∧ (∀ (o : Except Unit (List RawScrapeItem)) (url sourceName : String)
        (sel : ScrapeSelectors) (maxItems : Nat) (r : HttpRequest),
        r ∈ (scrapeBlog o url sourceName sel maxItems).2 → r.timeout = some 10000)
    ∧ (∀ (parseNews : String → Option (List NewsItem)) (o : TeamNewsOracle)
        (league teamName espnNewsId : String) (r : HttpRequest),
        r ∈ (fetchTeamNews parseNews o league teamName espnNewsId).2 →
          r.timeout = some 10000)
    ∧ (∀ (stripTags : String → String) (dayOf : String → Option Int) (today : Int)
        (o : Except Unit (List KTNEntry)) (feedUrl : String) (r : HttpRequest),
        r ∈ (fetchKillTheNewsletter stripTags dayOf today o feedUrl).2 →
          r.timeout = some 10000)
    ∧ (∀ (dayOf : String → Option Int) (today : Int) (o : ArticlesOracle)
        (cfg : ArticlesConfig) (mem : EpisodeMemory) (r : HttpRequest),
        r ∈ (fetchArticles dayOf today o cfg mem).feedRequests → r.timeout = some 10000)
    ∧ (∀ (dayOf : String → Option Int) (today : Int) (o : ArticlesOracle)
        (cfg : ArticlesConfig) (mem : EpisodeMemory) (r : HttpRequest),
        r ∈ (fetchArticles dayOf today o cfg mem).pageRequests → r.timeout = some 15000)
    ∧ (∀ (o : SportsOracle) (league teamName espnApiName : String) (r : HttpRequest),
        r ∈ (fetchSportsGame o league teamName espnApiName).2 → r.timeout = none) := by
  refine ⟨?_, ?_, ?_, ?_, ?_, ?_, ?_⟩
  · intro stripTags o url sourceName maxItems r hr
    cases o <;> simp_all [fetchRSSFeed]
  · intro o url sourceName sel maxItems r hr
    cases o <;> simp_all [scrapeBlog]
  · exact fetchTeamNews_requests
  · intro stripTags dayOf today o feedUrl r hr
    cases o <;> simp_all [fetchKillTheNewsletter]
  · exact fetchArticles_feedRequests_timeout
  · exact fetchArticles_pageRequests_timeout
  · exact fetchSportsGame_requests

/-- C9 witness: a concrete 10-second feed request and a concrete
timeout-less ESPN scoreboard request. -/
theorem c9_timeouts_witness :
    ({ url := "https://feeds.example/rss", timeout := some 10000 } : HttpRequest).timeout
        = some 10000
    ∧ ({ url := espnBase ++ "basketball" ++ "/" ++ "nba" ++ "/scoreboard?dates=" ++ "20260210",
         timeout := none } : HttpRequest).timeout = none :=
  ⟨c9_timeouts.1 idStrip (.error ()) "https://feeds.example/rss" "Feed" 5
      { url := "https://feeds.example/rss", timeout := some 10000 } (by decide),
   (c9_timeouts.2.2.2.2.2.2 sportsOracleOk "nba" "Warriors" "warriors"
      { url := espnBase ++ "basketball" ++ "/" ++ "nba" ++ "/scoreboard?dates=" ++ "20260210",
        timeout := none } (by decide))⟩

/-- C10: a transport failure yields no newsletter items, and on a parsed
feed an item is included exactly for the entries whose trimmed title and
publication-date string are non-empty and whose publication date,
truncated to local midnight, equals today — entries of any other day are
dropped. -/
theorem c10_newsletter_today_only :
    (∀ (stripTags : String → String) (dayOf : String → Option Int) (today : Int)
        (feedUrl : String),
        (fetchKillTheNewsletter stripTags dayOf today (.error ()) feedUrl).1 = [])
    ∧ (∀ (stripTags : String → String) (dayOf : String → Option Int) (today : Int)
        (entries : List KTNEntry) (feedUrl : String) (item : ContentItem),
        item ∈ (fetchKillTheNewsletter stripTags dayOf today (.ok entries) feedUrl).1 ↔
          ∃ e ∈ entries,
            jsTrim e.title ≠ "" ∧ jsTrim e.pubDate ≠ ""
              ∧ dayOf (jsTrim e.pubDate) = some today
              ∧ item = { title := jsTrim e.title,
                         summary := if jsTake 300 (stripTags (jsTrim e.content)) == ""
                           then jsTrim e.title
                           else jsTake 300 (stripTags (jsTrim e.content)),
                         date := some (jsTrim e.pubDate),
                         source := "Axios Newsletters", url := none }) := by
  refine ⟨fun _ _ _ _ => rfl, fun stripTags dayOf today entries feedUrl item => ?_⟩
  simp only [fetchKillTheNewsletter, List.mem_filterMap]
  constructor
  · rintro ⟨e, he, hk⟩
    exact ⟨e, he, (ktnKeep_eq_some stripTags dayOf today e item).mp hk⟩
  · rintro ⟨e, he, hc⟩
    exact ⟨e, he, (ktnKeep_eq_some stripTags dayOf today e item).mpr hc⟩

end Benpod
